import Mathlib

/-!
Verification of the MRPT RTTI / class-registry fragment (mrpt/utils/CObject.h) and of
CDUO3DCamera::close (libs/hwdrivers/src/CDUO3DCamera.cpp).

The header CObject.h only declares the registry operations (registerClass,
registerClassCustomName, findRegisteredClass, getAllRegisteredClasses,
getAllRegisteredClassesChildrenOf, registerAllPendingClasses) and the two
TRuntimeClassId member operations (createObject, derivedFrom); their implementation
files are not part of the sampled sources, so those operations are modelled from the
specification and from the header's own doc comments.  Descriptor pointer identity is
modelled as an index into a `World`, the list of all statically allocated descriptors.
The macro-generated parts (IMPLEMENTS_MRPT_OBJECT, IMPLEMENTS_VIRTUAL_MRPT_OBJECT,
CLASSINIT) are embedded from the source text itself.
-/

set_option autoImplicit false

namespace Mrpt

/-- Embedding of `struct TRuntimeClassId` (CObject.h lines 31-44).  `className` is the
primary name; `ptrCreateObject` records whether the factory function pointer is
non-null ("Create an object of the related class, or nullptr if it is virtual");
`getBaseClass` is the base-class resolver, `none` modelling a resolver that yields
nullptr (the root). -/
structure TRuntimeClassId where
  className : String
  ptrCreateObject : Bool
  getBaseClass : Option Nat
deriving DecidableEq

/-- The set of statically allocated descriptors of the program: descriptor pointer
identity is the index into this list. -/
abbrev World := List TRuntimeClassId

/-- Primary name of the descriptor with identity `i`, when `i` is a valid descriptor. -/
def className? (w : World) (i : Nat) : Option String :=
  (w[i]?).map TRuntimeClassId.className

/-- An object instance produced by a factory, tagged with the descriptor identity of
the concrete class it was constructed from. -/
structure CObjectInstance where
  ofClass : Nat
deriving DecidableEq

/-- Modelled from the spec: `createObject()` "invokes `factory` if present; returns a
new default-constructed instance as an opaque base-typed handle; fails (returns null /
reports not instantiable) if the type is abstract", matching the header's own comment
"Create an object of the related class, or nullptr if it is virtual" (CObject.h line
35).  The implementation file of TRuntimeClassId::createObject is not among the
sampled sources.  Total function: there is no exception path, the abstract case is the
`none` sentinel. -/
def createObject (w : World) (i : Nat) : Option CObjectInstance :=
  match w[i]? with
  | none => none
  | some d => if d.ptrCreateObject then some { ofClass := i } else none

/-- Modelled from the spec: `derivedFrom(other)` "walks the base-class chain from self
upward (following `baseClassResolver` repeatedly) until it finds `other` (success) or
reaches the root without a match (failure) or reaches `absent` (failure).  Equality
check at root: stop when current equals target or base resolver is `absent`."  The
implementation file of TRuntimeClassId::derivedFrom is not among the sampled sources.
`fuel` bounds the number of base-resolver steps; the equality test is made before any
step is taken. -/
def derivedFrom (w : World) (fuel : Nat) (self target : Nat) : Bool :=
  if self = target then true
  else
    match fuel with
    | 0 => false
    | f + 1 =>
      match (w[self]?).bind TRuntimeClassId.getBaseClass with
      | none => false
      | some b => derivedFrom w f b target

/-- Modelled from the spec: the process-wide registry state.  `registry` is the live
insertion-ordered list of registered descriptor identities; `customNames` the
secondary alias mapping; `pendingClassRegisters` the batch of descriptors recorded by
`registerClass` but not yet flushed into the live registry; and
`pendingClassRegistersModified` the flag described in the header doc of
registerAllPendingClasses (CObject.h lines 287-291). -/
structure RegistryState where
  registry : List Nat
  customNames : List (String × Nat)
  pendingClassRegisters : List Nat
  pendingClassRegistersModified : Bool
deriving DecidableEq

/-- The empty registry, before any static initializer has run. -/
def initialState : RegistryState :=
  { registry := []
    customNames := []
    pendingClassRegisters := []
    pendingClassRegistersModified := false }

/-- Modelled from the spec: `registerClass(descriptor)` records the descriptor; per
the batching description of section 4.2, the descriptor is queued in the pending batch
and the pending flag is raised, the live registry being updated at the
`registerAllPendingClasses` checkpoint. -/
def registerClass (s : RegistryState) (pNewClass : Nat) : RegistryState :=
  { s with
    pendingClassRegisters := s.pendingClassRegisters ++ [pNewClass]
    pendingClassRegistersModified := true }

/-- Modelled from the spec: the raw insertion into the live registry, "appends
descriptor to the registry if not already present (idempotent by identity)". -/
def registerClassRaw (reg : List Nat) (pNewClass : Nat) : List Nat :=
  if pNewClass ∈ reg then reg else reg ++ [pNewClass]

/-- Modelled from the spec and the header doc (CObject.h lines 287-291): flushes the
pending batch into the live registry; "after calling this method,
pending_class_registers_modified is set to false until pending_class_registers() is
invoked". -/
def registerAllPendingClasses (s : RegistryState) : RegistryState :=
  if s.pendingClassRegistersModified then
    { s with
      registry := s.pendingClassRegisters.foldl registerClassRaw s.registry
      pendingClassRegisters := []
      pendingClassRegistersModified := false }
  else s

/-- Modelled from the spec: `registerClassCustomName(alias, descriptor)` "adds a
secondary name-to-descriptor mapping". -/
def registerClassCustomName (s : RegistryState) (customName : String) (pNewClass : Nat) :
    RegistryState :=
  { s with customNames := s.customNames ++ [(customName, pNewClass)] }

/-- Modelled from the spec: "returns the full ordered set of descriptors currently
registered, order = registration order". -/
def getAllRegisteredClasses (s : RegistryState) : List Nat :=
  s.registry

/-- Modelled from the spec: `findRegisteredClass(name)` "returns the descriptor whose
primary name or any registered alias equals `name`, or not found if no match; exact
string match, case-sensitive".  Primary names are searched in registration order, then
the alias table in insertion order. -/
def findRegisteredClass (w : World) (s : RegistryState) (name : String) : Option Nat :=
  match s.registry.find? (fun i => className? w i == some name) with
  | some i => some i
  | none => (s.customNames.find? (fun p => p.1 == name)).map Prod.snd

/-- Modelled from the spec: "returns the subset of registered descriptors `d` such
that `d.derivedFrom(baseDescriptor)` holds and `d != baseDescriptor`; preserves
registration order of the filtered subset".  The base-chain walk is given fuel
`w.length`, enough for any non-repeating chain of valid descriptors. -/
def getAllRegisteredClassesChildrenOf (w : World) (s : RegistryState) (parentId : Nat) :
    List Nat :=
  (getAllRegisteredClasses s).filter
    (fun c => derivedFrom w w.length c parentId && c != parentId)

/-- Embedding of `struct CLASSINIT` (CObject.h lines 113-119): its constructor calls
`registerClass(pNewClass)` on the descriptor it is handed. -/
def CLASSINIT (s : RegistryState) (pNewClass : Nat) : RegistryState :=
  registerClass s pNewClass

/-- Embedding of the descriptor built by IMPLEMENTS_MRPT_OBJECT (CObject.h lines
230-232): `{#class_name, class_name::CreateObject, &class_name::_GetBaseClass}` —
factory present, base resolver yielding CLASS_ID(base). -/
def implementsMrptObjectId (name : String) (base : Nat) : TRuntimeClassId :=
  { className := name, ptrCreateObject := true, getBaseClass := some base }

/-- Embedding of the descriptor built by IMPLEMENTS_VIRTUAL_MRPT_OBJECT (CObject.h
lines 273-274): `{#class_name, nullptr, &class_name::_GetBaseClass}` — no factory.
`base = none` models a root class whose base resolver yields nullptr. -/
def implementsVirtualMrptObjectId (name : String) (base : Option Nat) : TRuntimeClassId :=
  { className := name, ptrCreateObject := false, getBaseClass := base }

/-- Embedding of the one static registration emitted by IMPLEMENTS_MRPT_OBJECT
(CObject.h lines 238-239): `CLASSINIT _init_class_name(CLASS_ID(base));` — the
initializer registers the BASE class descriptor, not the class being implemented.
IMPLEMENTS_VIRTUAL_MRPT_OBJECT emits no CLASSINIT member at all. -/
def staticInitOfImplementsMrptObject (s : RegistryState) (base : Nat) : RegistryState :=
  CLASSINIT s base

/-- Well-formedness of a reachable registry state: the live registry holds no
duplicate identity, and a cleared pending flag means an empty pending batch. -/
structure WellFormed (s : RegistryState) : Prop where
  nodup : s.registry.Nodup
  flagPending : s.pendingClassRegistersModified = false → s.pendingClassRegisters = []

/-- The vendor SDK calls CDUO3DCamera::close can make (CDUO3DCamera.cpp). -/
inductive DUOCall where
  | StopDUO
  | CloseDUO
deriving DecidableEq

/-- Embedding of the CDUO3DCamera fields relevant to close(): `m_duo` is the DUO
handle (`none` = NULL), the remaining members are abstracted into plain data
components. -/
structure CDUO3DCamera where
  m_duo : Option Nat
  m_options : Nat
  m_pframe_data : Nat
  m_evFrame : Nat
deriving DecidableEq

/-- Embedding of CDUO3DCamera::close (CDUO3DCamera.cpp lines 473-481, in the
MRPT_HAS_DUO3D build): `if (m_duo) return; StopDUO(m_duo); CloseDUO(m_duo);
m_duo = NULL;`.  Returns the updated camera together with the list of SDK calls
performed. -/
def CDUO3DCamera.close (c : CDUO3DCamera) : CDUO3DCamera × List DUOCall :=
  match c.m_duo with
  | some _ => (c, [])
  | none => ({ c with m_duo := none }, [DUOCall.StopDUO, DUOCall.CloseDUO])

/-! Concrete worlds and registry states used to evaluate the verified statements. -/

/-- One registered concrete class, used to evaluate the lookup lemmas. -/
def c1World : World :=
  [{ className := "CPose2D", ptrCreateObject := true, getBaseClass := none }]

/-- Registry holding exactly the descriptor 0 of c1World. -/
def c1State : RegistryState :=
  registerAllPendingClasses (registerClass initialState 0)

/-- Two-class scenario of the spec: identity 0 = Base, a virtual class with no
factory, identity 1 = Derived, with a factory and Base as its immediate base. -/
def c2World : World :=
  [implementsVirtualMrptObjectId "Base" none, implementsMrptObjectId "Derived" 0]

/-- The registry after the macro-generated static registration of the two-class
scenario has run, followed by registerAllPendingClasses.  Only Derived carries a
CLASSINIT, and it is handed CLASS_ID(base), so the single registration performed is
that of the Base descriptor (identity 0). -/
def c2State : RegistryState :=
  registerAllPendingClasses (staticInitOfImplementsMrptObject initialState 0)

/-- An abstract root plus a concrete derived class, to evaluate createObject. -/
def c3World : World :=
  [implementsVirtualMrptObjectId "CObject" none, implementsMrptObjectId "CPose2D" 0]

/-- A concrete class (identity 0) derived from a virtual base (identity 1). -/
def c4World : World :=
  [implementsMrptObjectId "CDerived" 1, implementsVirtualMrptObjectId "CBase" none]

/-- Registry holding both descriptors of c4World, in registration order [0, 1]. -/
def c4State : RegistryState :=
  registerAllPendingClasses (registerClass (registerClass initialState 0) 1)

/-- Registry holding exactly the descriptor 0, flushed, for the idempotence check. -/
def c5State : RegistryState :=
  registerAllPendingClasses (registerClass initialState 0)

/-- One registered class with a legacy alias to be added, for the alias check. -/
def c6World : World :=
  [{ className := "CImage", ptrCreateObject := true, getBaseClass := none }]

/-- Registry holding exactly the descriptor 0 of c6World. -/
def c6State : RegistryState :=
  registerAllPendingClasses (registerClass initialState 0)

/-- Two distinct descriptor identities sharing the primary name "CDup". -/
def c7World : World :=
  [{ className := "CDup", ptrCreateObject := true, getBaseClass := none },
   { className := "CDup", ptrCreateObject := false, getBaseClass := none }]

/-! Helper lemmas about the raw registry insertion and the pending-batch flush. -/

theorem mem_registerClassRaw_self (reg : List Nat) (d : Nat) :
    d ∈ registerClassRaw reg d := by
  unfold registerClassRaw
  split
  · assumption
  · exact List.mem_append_right _ (List.mem_singleton.mpr rfl)

theorem registerClassRaw_eq_of_mem {reg : List Nat} {d : Nat} (h : d ∈ reg) :
    registerClassRaw reg d = reg := by
  unfold registerClassRaw
  simp [h]

theorem mem_registerClassRaw_of_mem {reg : List Nat} {a : Nat} (d : Nat) (h : a ∈ reg) :
    a ∈ registerClassRaw reg d := by
  unfold registerClassRaw
  split
  · exact h
  · exact List.mem_append_left _ h

theorem mem_foldl_registerClassRaw_of_mem {a : Nat} :
    ∀ (l reg : List Nat), a ∈ reg → a ∈ List.foldl registerClassRaw reg l
  | [], _, h => h
  | d :: l, reg, h =>
    mem_foldl_registerClassRaw_of_mem l (registerClassRaw reg d)
      (mem_registerClassRaw_of_mem d h)

theorem mem_foldl_registerClassRaw_of_mem_batch {d : Nat} :
    ∀ (l reg : List Nat), d ∈ l → d ∈ List.foldl registerClassRaw reg l
  | a :: l, reg, h => by
    rcases List.mem_cons.mp h with h | h
    · subst h
      exact mem_foldl_registerClassRaw_of_mem l _ (mem_registerClassRaw_self reg d)
    · exact mem_foldl_registerClassRaw_of_mem_batch l _ h

theorem foldl_registerClassRaw_append_last {d : Nat} (l reg : List Nat)
    (h : d ∈ List.foldl registerClassRaw reg l) :
    List.foldl registerClassRaw reg (l ++ [d]) = List.foldl registerClassRaw reg l := by
  rw [List.foldl_append]
  exact registerClassRaw_eq_of_mem h

theorem nodup_registerClassRaw {reg : List Nat} (d : Nat) (h : reg.Nodup) :
    (registerClassRaw reg d).Nodup := by
  unfold registerClassRaw
  split
  · exact h
  · next hd => simp [List.nodup_append, h, hd]

theorem nodup_foldl_registerClassRaw :
    ∀ (l reg : List Nat), reg.Nodup → (List.foldl registerClassRaw reg l).Nodup
  | [], _, h => h
  | d :: l, reg, h =>
    nodup_foldl_registerClassRaw l (registerClassRaw reg d) (nodup_registerClassRaw d h)

theorem find?_append_of_forall_not {α : Type} (p : α → Bool) :
    ∀ (l1 l2 : List α), (∀ x ∈ l1, ¬p x = true) →
      List.find? p (l1 ++ l2) = List.find? p l2
  | [], _, _ => rfl
  | x :: l1, l2, h => by
    have hx : p x = false := by
      have := h x (List.mem_cons_self x l1)
      simpa using this
    rw [List.cons_append, List.find?_cons, hx]
    exact find?_append_of_forall_not p l1 l2 (fun y hy => h y (List.mem_cons_of_mem x hy))

/-- Core lookup lemma: a registered descriptor whose primary name is unique among the
registered primary names is found under that name. -/
theorem findRegisteredClass_of_registered (w : World) (s : RegistryState) (d : Nat)
    (n : String) (hd : d ∈ s.registry) (hname : className? w d = some n)
    (huniq : ∀ e ∈ s.registry, className? w e = some n → e = d) :
    findRegisteredClass w s n = some d := by
  obtain ⟨e, he⟩ : ∃ e, s.registry.find? (fun i => className? w i == some n) = some e := by
    have hs : (s.registry.find? (fun i => className? w i == some n)).isSome := by
      rw [List.find?_isSome]
      exact ⟨d, hd, by simp [hname]⟩
    exact Option.isSome_iff_exists.mp hs
  have hpe := List.find?_some he
  have hme : e ∈ s.registry := List.mem_of_find?_eq_some he
  have hed : e = d := huniq e hme (by simpa using hpe)
  subst hed
  unfold findRegisteredClass
  rw [he]

/-- Core lookup lemma: a name matching no registered primary name and no alias is not
found. -/
theorem findRegisteredClass_eq_none (w : World) (s : RegistryState) (n : String)
    (hreg : ∀ e ∈ s.registry, className? w e ≠ some n)
    (halias : ∀ p ∈ s.customNames, p.1 ≠ n) :
    findRegisteredClass w s n = none := by
  have h1 : s.registry.find? (fun i => className? w i == some n) = none := by
    rw [List.find?_eq_none]
    intro x hx
    simpa using hreg x hx
  have h2 : s.customNames.find? (fun p => p.1 == n) = none := by
    rw [List.find?_eq_none]
    intro p hp
    simpa using halias p hp
  unfold findRegisteredClass
  rw [h1, h2]
  rfl

/-! Claim theorems. -/

/-- Claim C1: every descriptor registered through registerClass is returned by
findRegisteredClass applied to its primary name, under exact case-sensitive matching
(the spec invariant that primary names are unique enters as the uniqueness
hypothesis), and a queried name equal to no registered primary name and no alias
yields the not-found sentinel. -/
theorem C1_findRegisteredClass_correct (w : World) (s : RegistryState) :
    (∀ d n, d ∈ s.registry → className? w d = some n →
      (∀ e ∈ s.registry, className? w e = some n → e = d) →
      findRegisteredClass w s n = some d) ∧
    (∀ n, (∀ e ∈ s.registry, className? w e ≠ some n) →
      (∀ p ∈ s.customNames, p.1 ≠ n) →
      findRegisteredClass w s n = none) :=
  ⟨fun d n hd hname huniq => findRegisteredClass_of_registered w s d n hd hname huniq,
   fun n hreg halias => findRegisteredClass_eq_none w s n hreg halias⟩

/-- Witness for C1 on the concrete one-class registry: the registered name is found,
an unknown name is not. -/
theorem C1_findRegisteredClass_correct_witness :
    findRegisteredClass c1World c1State "CPose2D" = some 0 ∧
    findRegisteredClass c1World c1State "CPose3D" = none :=
  ⟨(C1_findRegisteredClass_correct c1World c1State).1 0 "CPose2D" (by decide) (by decide)
      (by decide),
   (C1_findRegisteredClass_correct c1World c1State).2 "CPose3D" (by decide) (by decide)⟩

/-- Claim C3: a descriptor without a factory pointer (abstract or virtual type)
yields the null sentinel from createObject — a total function, so no exception is
possible — while a descriptor with a factory yields a freshly constructed instance of
its class as a base-typed handle. -/
theorem C3_createObject_factory (w : World) (i : Nat) (d : TRuntimeClassId)
    (hd : w[i]? = some d) :
    (d.ptrCreateObject = false → createObject w i = none) ∧
    (d.ptrCreateObject = true → createObject w i = some { ofClass := i }) := by
  constructor
  · intro h
    simp [createObject, hd, h]
  · intro h
    simp [createObject, hd, h]

/-- Witness for C3: in c3World the virtual root is not instantiable and the concrete
class produces an instance. -/
theorem C3_createObject_factory_witness :
    createObject c3World 0 = none ∧ createObject c3World 1 = some { ofClass := 1 } :=
  ⟨(C3_createObject_factory c3World 0 (implementsVirtualMrptObjectId "CObject" none) rfl).1
      rfl,
   (C3_createObject_factory c3World 1 (implementsMrptObjectId "CPose2D" 0) rfl).2 rfl⟩

/-- Claim C4: getAllRegisteredClassesChildrenOf b consists exactly of the registered
descriptors d with d.derivedFrom(b) and d distinct from b, it is a sublist of the
full registry (so the registration order is preserved), and it never contains b. -/
theorem C4_childrenOf_spec (w : World) (s : RegistryState) (b : Nat) :
    (∀ d, d ∈ getAllRegisteredClassesChildrenOf w s b ↔
      d ∈ getAllRegisteredClasses s ∧ derivedFrom w w.length d b = true ∧ d ≠ b) ∧
    (getAllRegisteredClassesChildrenOf w s b).Sublist (getAllRegisteredClasses s) ∧
    b ∉ getAllRegisteredClassesChildrenOf w s b := by
  have hmem : ∀ d, d ∈ getAllRegisteredClassesChildrenOf w s b ↔
      d ∈ getAllRegisteredClasses s ∧ derivedFrom w w.length d b = true ∧ d ≠ b := by
    intro d
    unfold getAllRegisteredClassesChildrenOf
    rw [List.mem_filter]
    simp [Bool.and_eq_true, bne_iff_ne, and_assoc]
  refine ⟨hmem, ?_, ?_⟩
  · unfold getAllRegisteredClassesChildrenOf
    exact List.filter_sublist _
  · intro hb
    exact ((hmem b).mp hb).2.2 rfl

/-- Witness for C4: in c4World with registry [0, 1], the derived class 0 is a child
of the base 1, and the base is not its own child. -/
theorem C4_childrenOf_spec_witness :
    0 ∈ getAllRegisteredClassesChildrenOf c4World c4State 1 ∧
    1 ∉ getAllRegisteredClassesChildrenOf c4World c4State 1 :=
  ⟨((C4_childrenOf_spec c4World c4State 1).1 0).mpr ⟨by decide, by decide, by decide⟩,
   (C4_childrenOf_spec c4World c4State 1).2.2⟩

/-- Claim C5: registerClass is idempotent by descriptor identity — re-registering a
descriptor already in the live registry leaves the flushed registry unchanged,
registering the same identity twice gives the same registry length as registering it
once, and the registry never contains duplicates. -/
theorem C5_registerClass_idempotent (s : RegistryState) (d : Nat) (hwf : WellFormed s) :
    (d ∈ s.registry →
      (registerAllPendingClasses (registerClass s d)).registry
        = (registerAllPendingClasses s).registry) ∧
    (registerAllPendingClasses (registerClass (registerClass s d) d)).registry.length
      = (registerAllPendingClasses (registerClass s d)).registry.length ∧
    (registerAllPendingClasses (registerClass s d)).registry.Nodup := by
  refine ⟨?_, ?_, ?_⟩
  · intro hd
    have h1 : (registerAllPendingClasses (registerClass s d)).registry
        = List.foldl registerClassRaw s.registry (s.pendingClassRegisters ++ [d]) := rfl
    rw [h1, foldl_registerClassRaw_append_last _ _
      (mem_foldl_registerClassRaw_of_mem _ _ hd)]
    by_cases h : s.pendingClassRegistersModified = true
    · simp [registerAllPendingClasses, h]
    · have hp : s.pendingClassRegisters = [] := hwf.flagPending (by simpa using h)
      rw [hp]
      simp [registerAllPendingClasses, h]
  · have h1 : (registerAllPendingClasses (registerClass (registerClass s d) d)).registry
        = List.foldl registerClassRaw s.registry ((s.pendingClassRegisters ++ [d]) ++ [d]) :=
      rfl
    have h2 : (registerAllPendingClasses (registerClass s d)).registry
        = List.foldl registerClassRaw s.registry (s.pendingClassRegisters ++ [d]) := rfl
    rw [h1, h2, foldl_registerClassRaw_append_last _ _
      (mem_foldl_registerClassRaw_of_mem_batch _ _
        (List.mem_append_right _ (List.mem_singleton.mpr rfl)))]
  · have h2 : (registerAllPendingClasses (registerClass s d)).registry
        = List.foldl registerClassRaw s.registry (s.pendingClassRegisters ++ [d]) := rfl
    rw [h2]
    exact nodup_foldl_registerClassRaw _ _ hwf.nodup

/-- Witness for C5 on the concrete registry [0]: re-registering 0 changes nothing,
double registration gives the same length as a single one, and no duplicates arise. -/
theorem C5_registerClass_idempotent_witness :
    (registerAllPendingClasses (registerClass c5State 0)).registry
      = (registerAllPendingClasses c5State).registry ∧
    (registerAllPendingClasses (registerClass (registerClass c5State 0) 0)).registry.length
      = (registerAllPendingClasses (registerClass c5State 0)).registry.length ∧
    (registerAllPendingClasses (registerClass c5State 0)).registry.Nodup := by
  obtain ⟨h1, h2, h3⟩ := C5_registerClass_idempotent c5State 0 ⟨by decide, by decide⟩
  exact ⟨h1 (by decide), h2, h3⟩

/-- Claim C6: once registerClassCustomName has added the fresh alias a for a
descriptor d registered under the unique primary name n, lookup by a succeeds and
agrees with lookup by n, both returning d. -/
theorem C6_alias_lookup (w : World) (s : RegistryState) (d : Nat) (n a : String)
    (hd : d ∈ s.registry) (hn : className? w d = some n)
    (huniq : ∀ e ∈ s.registry, className? w e = some n → e = d)
    (hfreshReg : ∀ e ∈ s.registry, className? w e ≠ some a)
    (hfreshAlias : ∀ p ∈ s.customNames, p.1 ≠ a) :
    findRegisteredClass w (registerClassCustomName s a d) a = some d ∧
    findRegisteredClass w (registerClassCustomName s a d) a
      = findRegisteredClass w (registerClassCustomName s a d) n := by
  have hreg2 : (registerClassCustomName s a d).registry = s.registry := rfl
  have halias : findRegisteredClass w (registerClassCustomName s a d) a = some d := by
    unfold findRegisteredClass
    have h1 : (registerClassCustomName s a d).registry.find?
        (fun i => className? w i == some a) = none := by
      rw [hreg2, List.find?_eq_none]
      intro x hx
      simpa using hfreshReg x hx
    have h2 : (registerClassCustomName s a d).customNames.find? (fun p => p.1 == a)
        = some (a, d) := by
      show (s.customNames ++ [(a, d)]).find? (fun p => p.1 == a) = some (a, d)
      rw [find?_append_of_forall_not _ _ _ (fun p hp => by simpa using hfreshAlias p hp)]
      simp [List.find?]
    rw [h1, h2]
    rfl
  have hprim : findRegisteredClass w (registerClassCustomName s a d) n = some d := by
    apply findRegisteredClass_of_registered w _ d n
    · rw [hreg2]
      exact hd
    · exact hn
    · intro e he
      exact huniq e (by rwa [hreg2] at he)
  exact ⟨halias, by rw [halias, hprim]⟩

/-- Witness for C6: alias "CMRPTImage" added for the class registered as "CImage" is
found and agrees with the primary-name lookup. -/
theorem C6_alias_lookup_witness :
    findRegisteredClass c6World (registerClassCustomName c6State "CMRPTImage" 0)
        "CMRPTImage" = some 0 ∧
    findRegisteredClass c6World (registerClassCustomName c6State "CMRPTImage" 0)
        "CMRPTImage"
      = findRegisteredClass c6World (registerClassCustomName c6State "CMRPTImage" 0)
        "CImage" :=
  C6_alias_lookup c6World c6State 0 "CImage" "CMRPTImage" (by decide) (by decide)
    (by decide) (by decide) (by decide)

/-- Claim C7: registering two distinct descriptor identities under the same primary
name is never fatal — both identities end up in the registry, the later one simply
being ignored by name lookup — and findRegisteredClass resolves the tie
first-registered-wins. -/
theorem C7_duplicate_name_first_wins (w : World) (s : RegistryState) (i j : Nat)
    (n : String) (hp : s.pendingClassRegisters = [])
    (hi : className? w i = some n) (hj : className? w j = some n) (hij : i ≠ j)
    (hfresh : ∀ e ∈ s.registry, className? w e ≠ some n)
    (hmi : i ∉ s.registry) (hmj : j ∉ s.registry) :
    findRegisteredClass w
        (registerAllPendingClasses (registerClass (registerClass s i) j)) n = some i ∧
    i ∈ (registerAllPendingClasses (registerClass (registerClass s i) j)).registry ∧
    j ∈ (registerAllPendingClasses (registerClass (registerClass s i) j)).registry := by
  have hji : j ∉ s.registry ++ [i] := by
    simp only [List.mem_append, List.mem_singleton]
    rintro (h | h)
    · exact hmj h
    · exact hij h.symm
  have hreg2 : (registerAllPendingClasses (registerClass (registerClass s i) j)).registry
      = s.registry ++ [i, j] := by
    have hreg : (registerAllPendingClasses (registerClass (registerClass s i) j)).registry
        = List.foldl registerClassRaw s.registry ((s.pendingClassRegisters ++ [i]) ++ [j]) :=
      rfl
    rw [hreg, hp]
    show registerClassRaw (registerClassRaw s.registry i) j = s.registry ++ [i, j]
    have e1 : registerClassRaw s.registry i = s.registry ++ [i] := by
      rw [registerClassRaw, if_neg hmi]
    have e2 : registerClassRaw (s.registry ++ [i]) j = (s.registry ++ [i]) ++ [j] := by
      rw [registerClassRaw, if_neg hji]
    rw [e1, e2, List.append_assoc]
    rfl
  refine ⟨?_, ?_, ?_⟩
  · unfold findRegisteredClass
    rw [hreg2,
      find?_append_of_forall_not _ _ _ (fun e he => by simpa using hfresh e he),
      List.find?_cons_of_pos _ (by simp [hi])]
  · rw [hreg2]
    simp
  · rw [hreg2]
    simp

/-- Witness for C7: the two descriptors of c7World both carry the name "CDup"; after
registering 0 then 1, lookup returns the first-registered identity 0 while both are
in the registry. -/
theorem C7_duplicate_name_first_wins_witness :
    findRegisteredClass c7World
        (registerAllPendingClasses (registerClass (registerClass initialState 0) 1)) "CDup"
      = some 0 ∧
    0 ∈ (registerAllPendingClasses (registerClass (registerClass initialState 0) 1)).registry ∧
    1 ∈ (registerAllPendingClasses (registerClass (registerClass initialState 0) 1)).registry :=
  C7_duplicate_name_first_wins c7World initialState 0 1 "CDup" rfl (by decide) (by decide)
    (by decide) (by decide) (by decide) (by decide)

/-- Claim C8: calling registerAllPendingClasses twice consecutively makes the second
call a no-op — it is idempotent on the whole state — the pending flag is false as
soon as a call returns, and it is raised again exactly by a new registration. -/
theorem C8_registerAllPendingClasses_idem (s : RegistryState) :
    registerAllPendingClasses (registerAllPendingClasses s) = registerAllPendingClasses s ∧
    (registerAllPendingClasses s).pendingClassRegistersModified = false ∧
    (∀ d, (registerClass s d).pendingClassRegistersModified = true) := by
  refine ⟨?_, ?_, fun d => rfl⟩
  · by_cases h : s.pendingClassRegistersModified = true
    · simp [registerAllPendingClasses, h]
    · simp [registerAllPendingClasses, h]
  · unfold registerAllPendingClasses
    split
    · rfl
    · next h => simpa using h

/-- Claim C9: derivedFrom is reflexive — the walk compares the current descriptor
against the target before following the base resolver, so d.derivedFrom(d) holds for
every descriptor and any fuel. -/
theorem C9_derivedFrom_refl (w : World) (fuel d : Nat) :
    derivedFrom w fuel d d = true := by
  unfold derivedFrom
  simp

/-- Claim C2 counterexample: in the two-class scenario the only macro-generated
static registration is Derived's CLASSINIT, which is handed CLASS_ID(base) — the Base
descriptor — and the virtual macro emits no CLASSINIT; hence after
registerAllPendingClasses the name "Derived" is not found (so no valid instance can
be obtained from findRegisteredClass("Derived")), and the children of Base are not
the claimed one-element list [Derived]. -/
theorem C2_counterexample :
    findRegisteredClass c2World c2State "Derived" = none ∧
    getAllRegisteredClassesChildrenOf c2World c2State 0 ≠ [1] := by
  decide

/-- Claim C2 amended: after the macro-generated static registration of the scenario
(and registerAllPendingClasses) the registry holds only the Base descriptor:
findRegisteredClass("Base") returns it and its createObject() is the not-instantiable
sentinel, findRegisteredClass("Derived") is the not-found sentinel, and
getAllRegisteredClassesChildrenOf(Base) is empty. -/
theorem C2_amended_scenario :
    getAllRegisteredClasses c2State = [0] ∧
    findRegisteredClass c2World c2State "Base" = some 0 ∧
    createObject c2World 0 = none ∧
    findRegisteredClass c2World c2State "Derived" = none ∧
    getAllRegisteredClassesChildrenOf c2World c2State 0 = [] := by
  decide

/-- Claim C10: when the DUO handle m_duo is non-null, close() returns immediately —
no StopDUO or CloseDUO call is made and every field of the camera is unchanged — and
the branch that stops the device and assigns m_duo = NULL runs only when m_duo is
already null. -/
theorem C10_close_guard (c : CDUO3DCamera) :
    (c.m_duo.isSome = true → CDUO3DCamera.close c = (c, [])) ∧
    ((CDUO3DCamera.close c).2 ≠ [] → c.m_duo = none) := by
  constructor
  · intro h
    obtain ⟨v, hv⟩ := Option.isSome_iff_exists.mp h
    simp [CDUO3DCamera.close, hv]
  · intro h
    cases hm : c.m_duo with
    | none => rfl
    | some v => exact absurd (by simp [CDUO3DCamera.close, hm]) h

/-- Witness for C10: a camera with an open handle is returned unchanged with no SDK
call, and a camera whose handle is already null is the one on which the stop branch
runs. -/
theorem C10_close_guard_witness :
    CDUO3DCamera.close { m_duo := some 1, m_options := 2, m_pframe_data := 3, m_evFrame := 4 }
      = ({ m_duo := some 1, m_options := 2, m_pframe_data := 3, m_evFrame := 4 }, []) ∧
    ({ m_duo := none, m_options := 0, m_pframe_data := 0, m_evFrame := 0 } :
      CDUO3DCamera).m_duo = none :=
  ⟨(C10_close_guard { m_duo := some 1, m_options := 2, m_pframe_data := 3, m_evFrame := 4 }).1
      rfl,
   (C10_close_guard { m_duo := none, m_options := 0, m_pframe_data := 0, m_evFrame := 0 }).2
      (by decide)⟩

end Mrpt
